import Mathlib

/-!
Model 01 keymaps (`src/keymaps.h`)

A shallow embedding of the layer table declared in `src/keymaps.h` and the
properties of that table: layer sizes, the layer enumeration, the targets of
the layer-control keys and the placement of the transparent marker.

The file `keymaps.h` is pure data.  It consists of

* the anonymous enumeration `enum { BL13, SFT_BL13, NUMPAD, FUNCTION }`, and
* one invocation of `KEYMAPS( [name] = KEYMAP_STACKED(...), ... )` with four
  designated initialisers.

The macros `KEYMAPS`, `KEYMAP_STACKED`, `ShiftToLayer`, `LockLayer`, `LT`,
`LSHIFT`, `M`, the markers `___` / `XXX` and all `Key_...` constants are
declared outside `keymaps.h` (in the firmware framework and in `keydefs.h`).
They are kept symbolic here: every identifier of the source is one constructor.
-/

namespace Keymaps

/-! ## The layer enumeration -/

/-- The enumerators of `enum { BL13, SFT_BL13, NUMPAD, FUNCTION }`
(`keymaps.h`, line 49). -/
inductive LayerName
  | BL13
  | SFT_BL13
  | NUMPAD
  | FUNCTION
  deriving DecidableEq, Repr

/-- The enumerators in the order in which the `enum` declares them. -/
def layerEnum : List LayerName :=
  [LayerName.BL13, LayerName.SFT_BL13, LayerName.NUMPAD, LayerName.FUNCTION]

/-- Value of an enumerator.  No enumerator of the source has an explicit
value, so the C rule applies: the first one is `0` and every later one is its
predecessor plus one, i.e. the value is the place in the declaration. -/
def LayerName.index (n : LayerName) : Nat :=
  layerEnum.indexOf n

/-- An enumerator used where the source expects a layer number. -/
instance : Coe LayerName Nat := ⟨LayerName.index⟩

/-! ## Bindings -/

/-- Modelled from the spec: the `Key_...` constants are declared in the
framework headers and in `keydefs.h`, none of which is part of `keymaps.h`.
Following the data model of the spec ("a concrete key action (keycode ...)")
each `Key_...` identifier that occurs in `keymaps.h` is one symbolic key
action. -/
inductive KeyName
  -- letters
  | Key_A | Key_B | Key_C | Key_D | Key_E | Key_F | Key_G | Key_H | Key_I
  | Key_J | Key_K | Key_L | Key_M | Key_N | Key_O | Key_P | Key_Q | Key_R
  | Key_S | Key_T | Key_U | Key_V | Key_W | Key_X | Key_Y | Key_Z
  -- digits
  | Key_0 | Key_1 | Key_2 | Key_3 | Key_4 | Key_5 | Key_6 | Key_7 | Key_8
  | Key_9
  -- function keys
  | Key_F1 | Key_F2 | Key_F3 | Key_F4 | Key_F5 | Key_F6 | Key_F7 | Key_F8
  | Key_F9 | Key_F10 | Key_F11 | Key_F12
  -- modifiers
  | Key_LeftShift | Key_LeftControl | Key_LeftGui | Key_RightGui | Key_LeftAlt
  -- editing and navigation
  | Key_Escape | Key_Tab | Key_Backspace | Key_Enter | Key_Spacebar
  | Key_Delete | Key_Home | Key_End | Key_PageUp | Key_PageDown
  | Key_LeftArrow | Key_DownArrow | Key_UpArrow | Key_RightArrow
  -- punctuation with the framework's names
  | Key_Equals | Key_Backtick | Key_Slash | Key_Comma | Key_Quote | Key_Minus
  | Key_Period | Key_Semicolon | Key_LeftBracket | Key_RightBracket
  -- punctuation with upper-case names
  | Key_CARET | Key_AND | Key_LPAREN | Key_PLUS | Key_TILDE | Key_BSLASH
  | Key_STAR | Key_RPAREN | Key_DOLLAR | Key_PRCNT | Key_DBLQUOTE | Key_POUND
  | Key_QUEST | Key_AT | Key_UNDERSCR | Key_EXCLM | Key_COLON | Key_PIPE
  | Key_LESS | Key_LCB | Key_RCB | Key_GREATER | Key_HASH
  -- LED control
  | Key_LEDEffectNext
  deriving DecidableEq, Repr

/-- Modelled from the spec: the macro indices used with `M(...)` are declared
outside `keymaps.h`; each one that occurs in `keymaps.h` is a symbolic "macro
invocation reference". -/
inductive MacroName
  | MACRO_TION
  | MACRO_VERSION_INFO
  deriving DecidableEq, Repr

/-- Modelled from the spec: the binding macros of the framework are not part
of `keymaps.h`.  A binding is the tagged variant of the spec's data model: a
concrete key action (possibly shifted), the transparent marker, the blocked
marker, a layer-control action (`ShiftToLayer`: momentary while held,
`LockLayer`: toggle on tap, `LT`: combined layer shift and key), or a macro
reference.  Layer-control actions carry the layer *number* they were given. -/
inductive Binding
  | key (k : KeyName)
  | LSHIFT (k : Binding)
  | transparent
  | blocked
  | ShiftToLayer (layer : Nat)
  | LockLayer (layer : Nat)
  | LT (layer : Nat) (k : KeyName)
  | M (m : MacroName)
  deriving DecidableEq, Repr

/-- A `Key_...` constant written in a key slot. -/
instance : Coe KeyName Binding := ⟨Binding.key⟩

/-- The marker `___`: the key press falls through to the previously active
layer. -/
def ___ : Binding := Binding.transparent

/-- The marker `XXX`: the key switch is blocked on this layer. -/
def XXX : Binding := Binding.blocked

/-- The layer number a layer-control binding refers to, if it is one. -/
def Binding.target : Binding → Option Nat
  | Binding.ShiftToLayer n => some n
  | Binding.LockLayer n => some n
  | Binding.LT n _ => some n
  | _ => none

/-- The layer that a `LockLayer(t)` or `ShiftToLayer(t)` binding enters. -/
def Binding.entered : Binding → Option Nat
  | Binding.LockLayer t => some t
  | Binding.ShiftToLayer t => some t
  | _ => none

/-- A binding that switches to layer `n`: `ShiftToLayer(n)`, `LockLayer(n)` or
`LT(n, key)`. -/
def Binding.switchesTo (b : Binding) (n : Nat) : Prop :=
  b.target = some n

instance (b : Binding) (n : Nat) : Decidable (b.switchesTo n) :=
  inferInstanceAs (Decidable (b.target = some n))

/-! ## Layers -/

/-- One keymap: the arguments of one `KEYMAP_STACKED(...)`, grouped into the
lines on which `keymaps.h` writes them (the source switches the indenter off
"so we can make the keymaps actually resemble the physical key layout"). -/
structure Layer where
  rows : List (List Binding)
  deriving DecidableEq, Repr

/-- The bindings of a layer in argument order; the key position of a binding
is its place in this sequence. -/
def Layer.bindings (L : Layer) : List Binding :=
  L.rows.flatten

/-- Modelled from the spec: the macro `KEYMAP_STACKED` belongs to the hardware
library.  Per the spec a layer is "a fixed-size ordered sequence of bindings,
one per physical key position, laid out in a device-specific geometric order
(two halves, rows, thumb clusters)"; the macro call is its argument list. -/
def KEYMAP_STACKED (rows : List (List Binding)) : Layer :=
  ⟨rows⟩

/-- Modelled from the spec: the key layout of the Model 01 is fixed by the
hardware library, not by `keymaps.h`.  The spec speaks of "two halves, rows,
thumb clusters"; per hand these are four rows of 7, 7, 6 and 7 keys, 4 thumb
keys and 1 palm key, which is also how `keymaps.h` lays out every keymap. -/
def handShape : List Nat := [7, 7, 6, 7, 4, 1]

/-- The line shape of a stacked keymap: the left hand, then the right hand. -/
def stackedShape : List Nat := handShape ++ handShape

/-- Modelled from the spec: the number of physical keys of the device, the
keys of both hands. -/
def physical_key_count : Nat := stackedShape.sum

/-! ## The layer table -/

open LayerName KeyName MacroName Binding

/-- An array under construction: a slot is `none` until an initialiser
designates it. -/
abbrev Table := List (Option Layer)

/-- One designated initialiser `[i] = L` applied to an array under
construction: the array grows up to slot `i` if it is shorter, and slot `i`
receives `L`. -/
def designate (tbl : Table) (i : Nat) (L : Layer) : Table :=
  (tbl ++ List.replicate (i + 1 - tbl.length) none).set i (some L)

/-- Modelled from the spec: the macro `KEYMAPS` belongs to the framework; it
declares the array of keymaps from its arguments.  The arguments in
`keymaps.h` are designated initialisers `[i] = L`, so the array is as long as
the largest designator plus one and the layer `L` sits at index `i`. -/
def KEYMAPS (inits : List (Nat × Layer)) : Table :=
  inits.foldl (fun tbl init => designate tbl init.1 init.2) []

/-- The arguments of `KEYMAPS(...)` in `keymaps.h` (lines 61 to 118), in the
order and on the lines on which the source writes them.  `LT(l, Tab)` names
its key without the `Key_` prefix in the source. -/
def layerInits : List (Nat × Layer) :=
  [ (BL13, KEYMAP_STACKED
      [ [Key_CARET,     Key_AND, Key_Equals, Key_LPAREN, Key_PLUS, Key_TILDE, Key_LEDEffectNext],
        [Key_Q,         Key_W,   Key_L,      Key_D,      Key_C,    Key_V,     ___],
        [Key_Escape,    Key_N,   Key_R,      Key_T,      Key_S,    Key_F],
        [Key_LeftShift, Key_Z,   Key_M,      Key_P,      Key_G,    Key_J,     LockLayer SFT_BL13],
        [Key_LeftControl, LT SFT_BL13 Key_Tab, Key_Backspace, Key_LeftGui],
        [ShiftToLayer NUMPAD],

        [___,               Key_BSLASH, Key_STAR,   Key_RPAREN,    Key_DOLLAR,   Key_PRCNT, Key_Backtick],
        [___,               Key_K,      Key_U,      Key_O,         Key_Y,        Key_B,     Key_Slash],
        [                   Key_Comma,  Key_A,      Key_E,         Key_I,        Key_H,     Key_Quote],
        [LockLayer NUMPAD,  Key_Minus,  Key_Period, Key_Semicolon, Key_DBLQUOTE, Key_X,     LT SFT_BL13 Key_Tab],
        [Key_RightGui, LT FUNCTION Key_Enter, LT NUMPAD Key_Spacebar, Key_LeftAlt],
        [Key_LeftControl] ]),

    (SFT_BL13, KEYMAP_STACKED
      [ [___,                ___,          ___,          ___,          ___,          ___,          ___],
        [LSHIFT Key_Q,       LSHIFT Key_W, LSHIFT Key_L, LSHIFT Key_D, LSHIFT Key_C, LSHIFT Key_V, ___],
        [LSHIFT Key_Escape,  LSHIFT Key_N, LSHIFT Key_R, LSHIFT Key_T, LSHIFT Key_S, LSHIFT Key_F],
        [___,                LSHIFT Key_Z, LSHIFT Key_M, LSHIFT Key_P, LSHIFT Key_G, LSHIFT Key_J, ___],
        [LSHIFT Key_LeftControl, LSHIFT Key_Tab, LSHIFT Key_Backspace, LSHIFT Key_LeftGui],
        [ShiftToLayer NUMPAD],

        [___, ___,          ___,          ___,          ___,          ___,          ___],
        [___, LSHIFT Key_K, LSHIFT Key_U, LSHIFT Key_O, LSHIFT Key_Y, LSHIFT Key_B, Key_POUND],
        [     Key_QUEST,    LSHIFT Key_A, LSHIFT Key_E, LSHIFT Key_I, LSHIFT Key_H, Key_AT],
        [___, Key_UNDERSCR, Key_EXCLM,    Key_COLON,    Key_PIPE,     LSHIFT Key_X, ___],
        [LSHIFT Key_RightGui, ___, LSHIFT Key_Spacebar, LSHIFT Key_LeftAlt],
        [LSHIFT Key_LeftControl] ]),

    (NUMPAD, KEYMAP_STACKED
      [ [___, ___,             ___,      ___,          ___,          ___,              ___],
        [___, Key_LESS,        Key_LCB,  M MACRO_TION, Key_RCB,      Key_GREATER,      ___],
        [___, Key_LeftBracket, Key_Home, Key_PageUp,   Key_PageDown, Key_End],
        [___, Key_8,           Key_6,    Key_2,        Key_4,        Key_RightBracket, ___],
        [___, Key_Spacebar, Key_Delete, ___],
        [___],

        [M MACRO_VERSION_INFO, ___,           ___,           ___,         ___,            ___,      ___],
        [___,                  Key_7,         Key_3,         Key_0,       Key_1,          Key_5,    ___],
        [                      Key_LeftArrow, Key_DownArrow, Key_UpArrow, Key_RightArrow, Key_9,    ___],
        [___,                  ___,           ___,           ___,         ___,            Key_HASH, ___],
        [___, ___, ___, ___],
        [___] ]),

    (FUNCTION, KEYMAP_STACKED
      [ [___, ___, ___, ___, ___, ___, ___],
        [___, ___, ___, ___, ___, ___, ___],
        [___, ___, ___, ___, ___, ___],
        [___, ___, ___, ___, ___, ___, ___],
        [___, ___, ___, ___],
        [___],
        [___, ___, ___, ___, ___, ___, ___],
        [___, ___, Key_F9, Key_F10, Key_F11, Key_F12, ___],
        [     ___, Key_F1, Key_F2,  Key_F3,  Key_F4, ___],
        [___, ___, Key_F5, Key_F6,  Key_F7,  Key_F8, ___],
        [___, ___, ___, ___],
        [___] ]) ]

/-- The array `keymaps` that `KEYMAPS(...)` declares. -/
def keymaps : Table :=
  KEYMAPS layerInits

/-- Modelled from the spec: the lookup itself is done by the framework.  Per
the spec the table exposes, "for a given (layer index, key position), the
binding at that slot", with "no computation beyond array indexing" and "no
failure modes beyond out-of-range lookup".  The result is `none` when the
lookup fails. -/
def lookup (l p : Nat) : Option Binding :=
  match keymaps[l]? with
  | some (some L) => L.bindings[p]?
  | _ => none

/-- Modelled from the spec: layer resolution is owned by the external
resolver, which "maintains a stack of active layer indices; on a key event,
scans from topmost active layer downward until a non-transparent binding is
found".  The stack is given topmost layer first; the result is `none` when no
active layer has a non-transparent binding for the key. -/
def resolve : List Nat → Nat → Option Binding
  | [], _ => none
  | l :: below, p =>
    match lookup l p with
    | some b => if b = ___ then resolve below p else some b
    | none => none

/-- Every slot of the table as a triple (layer index, key position, binding),
layer by layer and position by position. -/
def slots : List (Nat × Nat × Binding) :=
  (List.range keymaps.length).flatMap fun l =>
    (List.range physical_key_count).filterMap fun p =>
      (lookup l p).map fun b => (l, p, b)

/-! ## Basic facts about the table -/

theorem keymaps_length : keymaps.length = 4 := by decide

theorem physical_key_count_eq : physical_key_count = 64 := by decide

/-- The array holds the layers of the initialisers, one per initialiser and
in the order of the initialisers. -/
theorem keymaps_eq_inits : keymaps = layerInits.map fun init => some init.2 := by
  decide

/-- The designators of the four initialisers are 0, 1, 2, 3 in this order. -/
theorem designators_eq : layerInits.map Prod.fst = [0, 1, 2, 3] := by decide

/-- Every layer stored in the table has 64 bindings, written on lines of the
stacked shape. -/
theorem stored_layer_shape :
    ∀ oL ∈ keymaps, ∀ L ∈ oL,
      L.bindings.length = physical_key_count ∧ L.rows.map List.length = stackedShape := by
  decide

/-- Slot `l` of the table, for `l < 4`: it holds the layer of the one
initialiser whose designator is `l`. -/
theorem layer_at (l : Nat) (hl : l < 4) :
    ∃ L, layerInits.filter (fun init => init.1 = l) = [(l, L)] ∧
      keymaps[l]? = some (some L) ∧ L.bindings.length = physical_key_count ∧
      L.rows.map List.length = stackedShape := by
  interval_cases l
  · exact ⟨(layerInits.get ⟨0, by decide⟩).2, by decide, by decide, by decide, by decide⟩
  · exact ⟨(layerInits.get ⟨1, by decide⟩).2, by decide, by decide, by decide, by decide⟩
  · exact ⟨(layerInits.get ⟨2, by decide⟩).2, by decide, by decide, by decide, by decide⟩
  · exact ⟨(layerInits.get ⟨3, by decide⟩).2, by decide, by decide, by decide, by decide⟩

/-! ## Lookup -/

/-- Inside the table a lookup returns the binding found by indexing the
layer of the initialiser designated `l`. -/
theorem lookup_in_range (l p : Nat) (hl : l < 4) (hp : p < 64) :
    ∃ L b, layerInits.filter (fun init => init.1 = l) = [(l, L)] ∧
      L.bindings[p]? = some b ∧ lookup l p = some b := by
  obtain ⟨L, hinit, hk, hlen, -⟩ := layer_at l hl
  have hp2 : p < L.bindings.length := by
    rw [hlen, physical_key_count_eq]; exact hp
  refine ⟨L, L.bindings[p], hinit, List.getElem?_eq_getElem hp2, ?_⟩
  unfold lookup
  rw [hk]
  exact List.getElem?_eq_getElem hp2

/-- A lookup that succeeds is inside the table. -/
theorem lookup_bounds {l p : Nat} {b : Binding} (h : lookup l p = some b) :
    l < 4 ∧ p < 64 := by
  unfold lookup at h
  split at h
  · next L hk =>
    have hl : l < keymaps.length := (List.getElem?_eq_some_iff.mp hk).1
    have hmem : some L ∈ keymaps := List.getElem?_mem hk
    have hlen := (stored_layer_shape (some L) hmem L rfl).1
    have hp : p < L.bindings.length := (List.getElem?_eq_some_iff.mp h).1
    rw [keymaps_length] at hl
    rw [hlen, physical_key_count_eq] at hp
    exact ⟨hl, hp⟩
  · cases h

/-- A lookup fails exactly outside the table. -/
theorem lookup_eq_none_iff (l p : Nat) : lookup l p = none ↔ ¬ (l < 4 ∧ p < 64) := by
  constructor
  · rintro h ⟨hl, hp⟩
    obtain ⟨L, b, -, -, hb⟩ := lookup_in_range l p hl hp
    rw [h] at hb
    cases hb
  · intro h
    cases hb : lookup l p with
    | none => rfl
    | some b => exact absurd (lookup_bounds hb) h

/-- The list `slots` enumerates exactly the successful lookups. -/
theorem mem_slots {l p : Nat} {b : Binding} :
    (l, p, b) ∈ slots ↔ lookup l p = some b := by
  constructor
  · intro h
    simp only [slots, List.mem_flatMap, List.mem_filterMap, List.mem_range,
      Option.map_eq_some'] at h
    obtain ⟨l', -, p', -, b', hb, heq⟩ := h
    cases heq
    exact hb
  · intro h
    obtain ⟨hl, hp⟩ := lookup_bounds h
    simp only [slots, List.mem_flatMap, List.mem_filterMap, List.mem_range,
      Option.map_eq_some']
    exact ⟨l, by rw [keymaps_length]; exact hl, p,
      by rw [physical_key_count_eq]; exact hp, b, h, rfl⟩

/-- All layer-control bindings of the table, with their layer and position. -/
theorem control_slots :
    slots.filter (fun s => s.2.2.target.isSome) =
      [ (0, 26, LockLayer 1), (0, 28, LT 1 Key_Tab), (0, 31, ShiftToLayer 2),
        (0, 52, LockLayer 2), (0, 58, LT 1 Key_Tab), (0, 60, LT 3 Key_Enter),
        (0, 61, LT 2 Key_Spacebar), (1, 31, ShiftToLayer 2) ] := by
  decide

/-- Every layer-control binding of the table has a target below 4. -/
theorem control_targets_lt : ∀ s ∈ slots, ∀ n ∈ s.2.2.target, n < 4 := by
  set_option maxRecDepth 20000 in decide

/-- Where a binding of the table enters a layer by `LockLayer` or
`ShiftToLayer`, the entered layer is transparent at the same position. -/
theorem entered_transparent :
    ∀ s ∈ slots, ∀ t ∈ s.2.2.entered, lookup t s.2.1 = some ___ := by
  set_option maxRecDepth 20000 in decide

/-- All transparent slots of layer 0. -/
theorem base_transparent_slots :
    (slots.filter fun s => s.1 = 0 ∧ s.2.2 = ___).map (fun s => s.2.1) = [13, 32, 39] := by
  decide

/-! ## Claims -/

/-- C1: every layer of the layer table has the same number of bindings, and
that number is the physical key count of the Model 01, 64.  The slots of the
table are exactly the values of BL13, SFT_BL13, NUMPAD and FUNCTION; a hand has
32 keys, written as rows of 7, 7, 6 and 7 keys, 4 thumb keys and 1 palm key,
and every layer is written on lines of this shape, left hand then right
hand. -/
theorem C1_every_layer_has_64_bindings :
    layerEnum.map LayerName.index = List.range keymaps.length ∧
    physical_key_count = 64 ∧ handShape = [7, 7, 6, 7, 4, 1] ∧ handShape.sum = 32 ∧
    ∀ l, l < keymaps.length →
      ∃ L, keymaps[l]? = some (some L) ∧ L.bindings.length = physical_key_count ∧
        L.rows.map List.length = handShape ++ handShape := by
  refine ⟨by decide, by decide, rfl, by decide, ?_⟩
  intro l hl
  rw [keymaps_length] at hl
  obtain ⟨L, -, hk, hlen, hrows⟩ := layer_at l hl
  exact ⟨L, hk, hlen, hrows⟩

/-- C1 at the NUMPAD slot: the layer stored at index 2 has 64 bindings. -/
theorem C1_every_layer_has_64_bindings_witness :
    2 < keymaps.length ∧
    ∃ L, keymaps[2]? = some (some L) ∧ L.bindings.length = physical_key_count ∧
      L.rows.map List.length = handShape ++ handShape :=
  ⟨by decide, C1_every_layer_has_64_bindings.2.2.2.2 2 (by decide)⟩

/-- C2 as stated fails: layer 0 (BL13) binds key position 13, the last key of
the second row of the left hand, to the transparent marker, so not every
binding of layer 0 is different from the transparent marker. -/
theorem C2_counterexample :
    lookup BL13 13 = some ___ ∧
    ¬ ∀ p, p < physical_key_count → lookup BL13 p ≠ some ___ :=
  ⟨by decide, fun h => h 13 (by decide) (by decide)⟩

/-- C2 amended: layer 0 (BL13) contains exactly three transparent bindings, at
the key positions 13, 32 and 39; every key position below 64 has a binding in
layer 0, and at every position other than these three that binding is not the
transparent marker. -/
theorem C2_base_layer_transparent_positions (p : Nat) :
    (lookup BL13 p = some ___ ↔ p = 13 ∨ p = 32 ∨ p = 39) ∧
    (p < physical_key_count → ∃ b, lookup BL13 p = some b ∧
      (p ≠ 13 → p ≠ 32 → p ≠ 39 → b ≠ ___)) := by
  have key : lookup BL13 p = some ___ ↔ p = 13 ∨ p = 32 ∨ p = 39 := by
    constructor
    · intro h
      have h0 : lookup 0 p = some ___ := h
      have hmem : (0, p, ___) ∈ slots.filter fun s => s.1 = 0 ∧ s.2.2 = ___ := by
        rw [List.mem_filter]
        exact ⟨mem_slots.mpr h0, by simp⟩
      have hp : p ∈ (slots.filter fun s => s.1 = 0 ∧ s.2.2 = ___).map (fun s => s.2.1) :=
        List.mem_map.mpr ⟨_, hmem, rfl⟩
      rw [base_transparent_slots] at hp
      simpa using hp
    · rintro (rfl | rfl | rfl) <;> decide
  refine ⟨key, ?_⟩
  intro hp
  rw [physical_key_count_eq] at hp
  obtain ⟨L, b, -, -, hb⟩ := lookup_in_range 0 p (by decide) hp
  refine ⟨b, hb, ?_⟩
  intro h1 h2 h3 hb2
  rw [hb2] at hb
  rcases key.mp hb with h | h | h
  · exact h1 h
  · exact h2 h
  · exact h3 h

/-- C2 amended, at key position 0, which is none of the three positions:
layer 0 has a binding there and it is not the transparent marker. -/
theorem C2_base_layer_transparent_positions_witness :
    0 < physical_key_count ∧ ∃ b, lookup BL13 0 = some b ∧ b ≠ ___ := by
  obtain ⟨b, hb, hne⟩ := (C2_base_layer_transparent_positions 0).2 (by decide)
  exact ⟨by decide, b, hb, hne (by decide) (by decide) (by decide)⟩

/-- C3: every layer-control binding in every layer, be it `ShiftToLayer(n)`,
`LockLayer(n)` or `LT(n, key)`, refers to a layer index `n` that is less than
the number of layers, 4, and at which the table has a layer: the layer of the
initialiser designated `n`. -/
theorem C3_layer_control_targets_exist (l p n : Nat) (b : Binding)
    (hb : lookup l p = some b)
    (hn : b = ShiftToLayer n ∨ b = LockLayer n ∨ ∃ k, b = LT n k) :
    n < keymaps.length ∧ keymaps.length = 4 ∧
      ∃ L, (n, L) ∈ layerInits ∧ keymaps[n]? = some (some L) := by
  have ht : b.target = some n := by
    rcases hn with rfl | rfl | ⟨k, rfl⟩ <;> rfl
  have hn4 : n < 4 :=
    control_targets_lt (l, p, b) (mem_slots.mpr hb) n (Option.mem_def.mpr ht)
  obtain ⟨L, hinit, hk, -, -⟩ := layer_at n hn4
  have hin : (n, L) ∈ layerInits.filter (fun init => init.1 = n) := by
    rw [hinit]; exact List.mem_singleton.mpr rfl
  exact ⟨by rw [keymaps_length]; exact hn4, keymaps_length, L,
    (List.mem_filter.mp hin).1, hk⟩

/-- C3 at the right thumb key bound to `LT(FUNCTION, Enter)` in layer 0: its
target 3 is a layer of the table. -/
theorem C3_layer_control_targets_exist_witness :
    lookup 0 60 = some (LT 3 Key_Enter) ∧
    (3 < keymaps.length ∧ keymaps.length = 4 ∧
      ∃ L, (3, L) ∈ layerInits ∧ keymaps[3]? = some (some L)) :=
  ⟨by decide,
    C3_layer_control_targets_exist 0 60 3 (LT 3 Key_Enter) (by decide)
      (Or.inr (Or.inr ⟨Key_Enter, rfl⟩))⟩

/-- C4: the lookup of (layer index `l`, key position `p`) succeeds for every
`l < 4` and `p < 64` and returns the binding written at that slot, i.e. the
`p`-th argument of the one keymap designated `[l]`; it fails exactly when `l`
or `p` is out of range. -/
theorem C4_lookup_succeeds_exactly_in_range (l p : Nat) :
    (l < 4 ∧ p < 64 →
      ∃ L b, layerInits.filter (fun init => init.1 = l) = [(l, L)] ∧
        L.bindings[p]? = some b ∧ lookup l p = some b) ∧
    (lookup l p = none ↔ ¬ (l < 4 ∧ p < 64)) :=
  ⟨fun h => lookup_in_range l p h.1 h.2, lookup_eq_none_iff l p⟩

/-- C4 at layer 2 (NUMPAD), key position 15: the lookup returns
`Key_LeftBracket`. -/
theorem C4_lookup_succeeds_exactly_in_range_witness :
    ((2 : Nat) < 4 ∧ (15 : Nat) < 64) ∧ lookup 2 15 = some (key Key_LeftBracket) ∧
    ∃ L b, layerInits.filter (fun init => init.1 = 2) = [(2, L)] ∧
      L.bindings[15]? = some b ∧ lookup 2 15 = some b :=
  ⟨by decide, by decide,
    (C4_lookup_succeeds_exactly_in_range 2 15).1 ⟨by decide, by decide⟩⟩

/-- C5: layers are 0-indexed in the order of the layer enum.  The names are
mapped to the consecutive indices 0, 1, 2, ... in declaration order, distinct
names to distinct indices; the table has as many slots as there are names; for
each name exactly one keymap is designated with it and that keymap is stored
at the index of the name; and the keymaps are written in the order of the
enum. -/
theorem C5_layers_indexed_in_enum_order :
    layerEnum.map LayerName.index = List.range layerEnum.length ∧
    (∀ n : LayerName, n ∈ layerEnum) ∧
    Function.Injective LayerName.index ∧
    keymaps.length = layerEnum.length ∧
    (∀ n : LayerName, ∃ L,
      layerInits.filter (fun init => init.1 = n.index) = [(n.index, L)] ∧
        keymaps[n.index]? = some (some L)) ∧
    layerInits.map Prod.fst = layerEnum.map LayerName.index ∧
    keymaps = layerInits.map (fun init => some init.2) := by
  refine ⟨by decide, ?_, ?_, by decide, ?_, by decide, keymaps_eq_inits⟩
  · intro n
    cases n <;> decide
  · intro a b h
    cases a <;> cases b <;> first | rfl | exact absurd h (by decide)
  · intro n
    have hn : n.index < 4 := by cases n <;> decide
    obtain ⟨L, hinit, hk, -, -⟩ := layer_at n.index hn
    exact ⟨L, hinit, hk⟩

/-- C6 as stated fails: the table consists of four keymaps, not three, and
FUNCTION is layer 3, not layer 1. -/
theorem C6_counterexample :
    keymaps.length = 4 ∧ LayerName.index FUNCTION = 3 ∧
    ¬ (keymaps.length = 3 ∧ layerEnum.map LayerName.index = [0, 1, 2] ∧
        LayerName.index FUNCTION = 1 ∧ LayerName.index NUMPAD = 2) :=
  ⟨by decide, by decide, fun h => absurd h.1 (by decide)⟩

/-- C6 amended: the layer table consists of exactly four keymaps (the base
keymap BL13, its shifted keymap SFT_BL13, the Numpad keymap and the Function
keymap), whose enum names stand for the numbers 0, 1, 2 and 3, with NUMPAD
being layer 2 and FUNCTION being layer 3. -/
theorem C6_four_keymaps :
    keymaps.length = 4 ∧ layerInits.length = 4 ∧
    layerEnum = [BL13, SFT_BL13, NUMPAD, FUNCTION] ∧
    layerEnum.map LayerName.index = [0, 1, 2, 3] ∧
    LayerName.index BL13 = 0 ∧ LayerName.index SFT_BL13 = 1 ∧
    LayerName.index NUMPAD = 2 ∧ LayerName.index FUNCTION = 3 ∧
    layerInits.map Prod.fst =
      [LayerName.index BL13, LayerName.index SFT_BL13, LayerName.index NUMPAD,
        LayerName.index FUNCTION] ∧
    keymaps = layerInits.map (fun init => some init.2) := by
  refine ⟨by decide, by decide, rfl, by decide, by decide, by decide, by decide,
    by decide, by decide, keymaps_eq_inits⟩

/-- C7: the NUM and FN keys are consistent and accessible on all layers.
There are key positions `pN` (the left palm key, 31) and `pF` (the second
right thumb key, 60) such that layer 0 binds `pN` to a layer switch to NUMPAD
and `pF` to a layer switch to FUNCTION, and in every other layer the binding at
`pN` is transparent or a layer switch to NUMPAD and the binding at `pF` is
transparent or a layer switch to FUNCTION; so with layer 0 below, both keys
resolve to their layer switch from every layer. -/
theorem C7_num_and_fn_keys :
    ∃ pN pF, pN = 31 ∧ pF = 60 ∧
      lookup 0 pN = some (ShiftToLayer NUMPAD) ∧
      lookup 0 pF = some (LT FUNCTION Key_Enter) ∧
      (∃ b, lookup 0 pN = some b ∧ b.switchesTo NUMPAD) ∧
      (∃ b, lookup 0 pF = some b ∧ b.switchesTo FUNCTION) ∧
      ∀ l, l ≠ 0 → l < keymaps.length →
        (lookup l pN = some ___ ∨ ∃ b, lookup l pN = some b ∧ b.switchesTo NUMPAD) ∧
        (lookup l pF = some ___ ∨ ∃ b, lookup l pF = some b ∧ b.switchesTo FUNCTION) ∧
        (∃ b, resolve [l, 0] pN = some b ∧ b.switchesTo NUMPAD) ∧
        (∃ b, resolve [l, 0] pF = some b ∧ b.switchesTo FUNCTION) := by
  refine ⟨31, 60, rfl, rfl, by decide, by decide,
    ⟨ShiftToLayer NUMPAD, by decide, by decide⟩,
    ⟨LT FUNCTION Key_Enter, by decide, by decide⟩, ?_⟩
  intro l h0 hl
  rw [keymaps_length] at hl
  interval_cases l
  · exact absurd rfl h0
  · exact ⟨Or.inr ⟨ShiftToLayer NUMPAD, by decide, by decide⟩, Or.inl (by decide),
      ⟨ShiftToLayer NUMPAD, by decide, by decide⟩,
      ⟨LT FUNCTION Key_Enter, by decide, by decide⟩⟩
  · exact ⟨Or.inl (by decide), Or.inl (by decide),
      ⟨ShiftToLayer NUMPAD, by decide, by decide⟩,
      ⟨LT FUNCTION Key_Enter, by decide, by decide⟩⟩
  · exact ⟨Or.inl (by decide), Or.inl (by decide),
      ⟨ShiftToLayer NUMPAD, by decide, by decide⟩,
      ⟨LT FUNCTION Key_Enter, by decide, by decide⟩⟩

/-- C7 at layer 2 (NUMPAD): both key positions are transparent there and
resolve to the layer switches of layer 0. -/
theorem C7_num_and_fn_keys_witness :
    (2 ≠ 0 ∧ 2 < keymaps.length) ∧
    ∃ pN pF,
      (lookup 2 pN = some ___ ∨ ∃ b, lookup 2 pN = some b ∧ b.switchesTo NUMPAD) ∧
      (lookup 2 pF = some ___ ∨ ∃ b, lookup 2 pF = some b ∧ b.switchesTo FUNCTION) ∧
      (∃ b, resolve [2, 0] pN = some b ∧ b.switchesTo NUMPAD) ∧
      (∃ b, resolve [2, 0] pF = some b ∧ b.switchesTo FUNCTION) := by
  obtain ⟨pN, pF, -, -, -, -, -, -, h⟩ := C7_num_and_fn_keys
  exact ⟨by decide, pN, pF, h 2 (by decide) (by decide)⟩

/-- C8: a locked or momentarily shifted layer can always be left from the key
that entered it.  For every layer `l` and position `p` whose binding is
`LockLayer(t)` or `ShiftToLayer(t)`, the binding at `(t, p)` in the target
layer is the transparent marker; so with layer `t` active on top, the key
resolves exactly as it does without layer `t`, and on top of layer `l` it
resolves to the layer-control binding of layer `l`. -/
theorem C8_entered_layer_can_be_left (l p t : Nat)
    (h : lookup l p = some (LockLayer t) ∨ lookup l p = some (ShiftToLayer t)) :
    lookup t p = some ___ ∧
    (∀ below, resolve (t :: below) p = resolve below p) ∧
    (∀ below, resolve (t :: l :: below) p = lookup l p) := by
  have htp : lookup t p = some ___ := by
    rcases h with h | h
    · exact entered_transparent (l, p, LockLayer t) (mem_slots.mpr h) t rfl
    · exact entered_transparent (l, p, ShiftToLayer t) (mem_slots.mpr h) t rfl
  have hstep : ∀ below, resolve (t :: below) p = resolve below p := by
    intro below
    simp [resolve, htp]
  refine ⟨htp, hstep, ?_⟩
  intro below
  rw [hstep]
  rcases h with h | h
  · rw [h, resolve, h]
    rfl
  · rw [h, resolve, h]
    rfl

/-- C8 at the key that locks SFT_BL13 from layer 0 (position 26): layer 1 is
transparent there. -/
theorem C8_entered_layer_can_be_left_witness :
    lookup 0 26 = some (LockLayer 1) ∧ lookup 1 26 = some ___ ∧
    resolve [1, 0] 26 = some (LockLayer 1) := by
  have h := C8_entered_layer_can_be_left 0 26 1 (Or.inl (by decide))
  refine ⟨by decide, h.1, ?_⟩
  rw [h.2.2 []]
  decide

end Keymaps
